import Mathlib

/-!
Shallow embedding of the movie_sync playback-synchronization engine
(src/main.py and src/main2.py).

Conventions of the embedding:
* Python integers are `Int` (Python's `%` on a positive modulus is `Int.emod`).
* Raised Python exceptions are `Except.error` values carrying the exception name.
* The media engine (python-vlc) is modelled by an explicit `PlayerState`:
  `set_time` writes `positionMs`, `set_rate` writes `rate`, `play` sets
  `isPlaying`, `set_media` writes `loadedMedia`.  The 0.1 s sleep before the
  host re-reads `get_time` is elided: the position does not advance while a
  single command is being handled.
* The filesystem is explicit data: `disk` is the set of paths that exist
  (`os.path.exists`) and `folder` is the pre-scanned, fingerprinted content of
  the configured media folder (`find_media_files` + `get_file_info`), in the
  deterministic sorted order the scan produces; `folder = none` models an
  absent (falsy) `folder_path`.
* Network sends are recorded as `SendEff` values instead of socket writes;
  `broadcast_command` mirrors the source's loop over the client list.
* Python playback rates 0.95 / 1.0 / 1.05 are exact rationals.
-/

/-- `MediaFile` dataclass (main.py:59-65, main2.py:60-66). -/
structure MediaFile where
  path : String
  name : String
  size : Nat
  hash : String
  index : Int
deriving Repr, DecidableEq

/-- `Playlist` state: the thread lock is irrelevant to the sequential
functional model (main.py:67-71, main2.py:68-72). -/
structure Playlist where
  media_files : List MediaFile
  current_index : Int
deriving Repr, DecidableEq

/-- `Playlist.__init__`: empty list, cursor −1. -/
def Playlist.init : Playlist := { media_files := [], current_index := -1 }

/-- `Playlist.add_file` (main.py:73-75). -/
def Playlist.add_file (pl : Playlist) (media_file : MediaFile) : Playlist :=
  { pl with media_files := pl.media_files ++ [media_file] }

/-- `Playlist.get_current_file` (main.py:77-80). -/
def Playlist.get_current_file (pl : Playlist) : Option MediaFile :=
  if 0 ≤ pl.current_index ∧ pl.current_index < (pl.media_files.length : Int) then
    pl.media_files.get? pl.current_index.toNat
  else none

/-- `Playlist.set_current_index` (main.py:82-87): returns the success flag
together with the (possibly unchanged) state. -/
def Playlist.set_current_index (pl : Playlist) (index : Int) : Bool × Playlist :=
  if 0 ≤ index ∧ index < (pl.media_files.length : Int) then
    (true, { pl with current_index := index })
  else (false, pl)

/-- `Playlist.next_file` (main.py:89-94): `(current_index + 1) % len`,
Python `%` on a positive modulus is `Int.emod`. -/
def Playlist.next_file (pl : Playlist) : Option MediaFile × Playlist :=
  if pl.media_files.isEmpty then (none, pl)
  else
    let pl' := { pl with
      current_index := (pl.current_index + 1) % (pl.media_files.length : Int) }
    (pl'.get_current_file, pl')

/-- `Playlist.previous_file` (main.py:96-101). -/
def Playlist.previous_file (pl : Playlist) : Option MediaFile × Playlist :=
  if pl.media_files.isEmpty then (none, pl)
  else
    let pl' := { pl with
      current_index := (pl.current_index - 1) % (pl.media_files.length : Int) }
    (pl'.get_current_file, pl')

/-- One fingerprinted file of the local media folder, as produced by
`find_media_files` + `FileHandler.get_file_info` (main2.py:104-137). -/
structure LocalFile where
  path : String
  name : String
  size : Nat
  hash : String
deriving Repr, DecidableEq

/-- One entry of a `playlist_info` message (main2.py:229-242). -/
structure AnnouncedEntry where
  name : String
  size : Nat
  hash : String
  index : Int
deriving Repr, DecidableEq

/-- `VLCSync.find_matching_file` (main2.py:360-368): `None` when
`folder_path` is falsy, else the first scanned file whose fingerprint equals
the announced hash. -/
def find_matching_file (folder : Option (List LocalFile)) (announcedHash : String) :
    Option String :=
  match folder with
  | none => none
  | some files =>
    match files.find? (fun f => f.hash == announcedHash) with
    | some f => some f.path
    | none => none

/-- Python `local_path if local_path else ""` where `local_path` is an
optional string: `some ""` is falsy so it also yields `""`. -/
def orEmpty : Option String → String
  | some p => p
  | none => ""

/-- Python truthiness of an optional string (`if local_path:`). -/
def optTruthy : Option String → Bool
  | some p => !(p == "")
  | none => false

/-- `self.missing_files`: the dict is an association list where the most
recent insertion shadows older pairs (lookup takes the first hit). -/
abbrev MissingFiles := List (Int × MediaFile)

/-- Dict assignment `self.missing_files[index] = media_file`. -/
def MissingFiles.store (m : MissingFiles) (k : Int) (v : MediaFile) : MissingFiles :=
  (k, v) :: m

/-- `index in self.missing_files`. -/
def MissingFiles.hasKey (m : MissingFiles) (k : Int) : Bool :=
  m.any (fun p => p.1 == k)

/-- The `MediaFile` built for one announced entry during reconciliation
(main2.py:340-347). -/
def mkEntry (folder : Option (List LocalFile)) (fi : AnnouncedEntry) : MediaFile :=
  { path := orEmpty (find_matching_file folder fi.hash)
    name := fi.name
    size := fi.size
    hash := fi.hash
    index := fi.index }

/-- Loop body of `VLCSync.handle_playlist_info` (main2.py:339-352): append the
rebuilt entry, and record it in `missing_files` when no local match exists. -/
def playlistInfoStep (folder : Option (List LocalFile))
    (acc : Playlist × MissingFiles) (fi : AnnouncedEntry) : Playlist × MissingFiles :=
  let local_path := find_matching_file folder fi.hash
  let media_file := mkEntry folder fi
  let pl := acc.1.add_file media_file
  if optTruthy local_path then (pl, acc.2)
  else (pl, acc.2.store media_file.index media_file)

/-- `VLCSync.handle_playlist_info` (main2.py:335-358): discard the playlist
(`self.playlist = Playlist()`) and rebuild it in announced order; the
`missing_files` dict is extended, not reset. -/
def handle_playlist_info (folder : Option (List LocalFile)) (missing0 : MissingFiles)
    (playlist_info : List AnnouncedEntry) : Playlist × MissingFiles :=
  playlist_info.foldl (playlistInfoStep folder) (Playlist.init, missing0)

/-- `VLCSync.request_file` (main2.py:386-391): only a client sends the
`request_file` message (to the host); the result is the list of requested
indices that go out. -/
def request_file (isHost : Bool) (file_index : Int) : List Int :=
  if isHost then [] else [file_index]

/-- Result of `verify_and_load_file`: success flag, playlist after the call,
media loaded in the engine, and the `request_file` indices sent. -/
structure LoadResult where
  ok : Bool
  playlist : Playlist
  loadedMedia : Option String
  requests : List Int
deriving Repr, DecidableEq

/-- `VLCSync.verify_and_load_file` (main2.py:370-384): look the entry up by
its `index` field; absent entry fails; entry whose path does not exist on
disk fails and (via `request_file`) asks the host for it; otherwise set the
cursor and hand the path to the media engine. -/
def verify_and_load_file (isHost : Bool) (disk : List String) (pl : Playlist)
    (loaded : Option String) (file_index : Int) : LoadResult :=
  match pl.media_files.find? (fun mf => mf.index == file_index) with
  | none => { ok := false, playlist := pl, loadedMedia := loaded, requests := [] }
  | some media_file =>
    if disk.contains media_file.path then
      let pl' := (pl.set_current_index file_index).2
      { ok := true, playlist := pl', loadedMedia := some media_file.path, requests := [] }
    else
      { ok := false, playlist := pl, loadedMedia := loaded,
        requests := request_file isHost file_index }

/-- The externally owned media-engine state the handlers manipulate. -/
structure PlayerState where
  positionMs : Int
  rate : ℚ
  isPlaying : Bool
  loadedMedia : Option String
deriving Repr, DecidableEq

/-- `VLCSync.handle_sync` of main.py (main.py:438-462): latency-adjusted
target, hard-seek beyond 1000 ms, ±5 % rate nudge between 100 ms and
1000 ms, rate restored to 1.0 within 100 ms.  `oneWayLatencyMs` is
`int(measure_latency() / 2)`. -/
def handle_sync_v1 (isHost : Bool) (hostTimeMs oneWayLatencyMs : Int)
    (st : PlayerState) : PlayerState :=
  if !isHost && st.isPlaying then
    let adjusted_host_time := hostTimeMs + oneWayLatencyMs
    let time_diff := st.positionMs - adjusted_host_time
    if 1000 < |time_diff| then { st with positionMs := adjusted_host_time }
    else if 100 < |time_diff| then
      if 0 < time_diff then { st with rate := 0.95 }
      else { st with rate := 1.05 }
    else { st with rate := 1 }
  else st

/-- `adjusted_host_time` of main2.py's `handle_sync` (main2.py:476-479):
`host_time + (now − sync_time)` with wall clocks in milliseconds. -/
def adjusted_host_time_v2 (hostTimeMs syncTimeMs nowMs : Int) : Int :=
  hostTimeMs + (nowMs - syncTimeMs)

/-- `VLCSync.handle_sync` of main2.py (main2.py:472-489): while playing,
hard-seek whenever the difference exceeds 100 ms and do nothing otherwise;
while not playing, set the position to the target. -/
def handle_sync_v2 (isHost : Bool) (hostTimeMs syncTimeMs nowMs : Int)
    (st : PlayerState) : PlayerState :=
  if !isHost then
    let adjusted := adjusted_host_time_v2 hostTimeMs syncTimeMs nowMs
    if st.isPlaying then
      if 100 < |st.positionMs - adjusted| then { st with positionMs := adjusted }
      else st
    else { st with positionMs := adjusted }
  else st

/-- Index computation of `VLCSync.play_next` (main2.py:179-186).  `randDraw`
is the entropy consumed by `random.randint(0, len - 1)`, which raises
`ValueError` on an empty range; the non-shuffle branch computes
`(current_index + 1) % len`, which raises `ZeroDivisionError` when the
playlist is empty. -/
def play_next_index (shuffle_mode : Bool) (randDraw : Nat) (pl : Playlist) :
    Except String Int :=
  if shuffle_mode then
    if pl.media_files.length = 0 then
      Except.error "ValueError: empty range for randrange"
    else Except.ok ((randDraw % pl.media_files.length : Nat) : Int)
  else
    if pl.media_files.length = 0 then
      Except.error "ZeroDivisionError: integer modulo by zero"
    else Except.ok ((pl.current_index + 1) % (pl.media_files.length : Int))

/-- Outgoing wire messages (the `type`-tagged JSON objects of main2.py). -/
inductive OutMsg where
  | pong
  | requestFileMsg (index : Int)
  | syncMsg (time sync_time : Int)
  | playMsg (time : Int)
  | pauseMsg
  | seekMsg (time : Int)
  | playFileMsg (index : Int) (time : Int)
  | shuffleStateMsg (enabled : Bool)
deriving Repr, DecidableEq

/-- A completed network send: a client writes to its single host socket, the
host writes to one peer socket (peers are numbered). -/
inductive SendEff where
  | toHost (m : OutMsg)
  | toPeer (peer : Nat) (m : OutMsg)
deriving Repr, DecidableEq

/-- The `VLCSync` session state the dispatcher reads and writes. -/
structure NodeState where
  isHost : Bool
  folder : Option (List LocalFile)
  disk : List String
  clients : List Nat
  playlist : Playlist
  player : PlayerState
  missing_files : MissingFiles
  shuffle_mode : Bool
deriving Repr, DecidableEq

/-- `VLCSync.broadcast_command` (main2.py:468-470): send to every client in a
snapshot of the connection list. -/
def broadcast_command (st : NodeState) (m : OutMsg) : List SendEff :=
  st.clients.map (fun c => SendEff.toPeer c m)

/-- `VLCSync.send_sync_command` (main2.py:495-503): only a host that is
currently playing broadcasts a `sync` carrying its playback position and the
wall clock. -/
def send_sync_command (nowMs : Int) (st : NodeState) : List SendEff :=
  if st.isHost && st.player.isPlaying then
    broadcast_command st (OutMsg.syncMsg st.player.positionMs nowMs)
  else []

/-- `VLCSync.play` of main2.py (main2.py:414-424): optional seek, start
playback, and (host only) broadcast the resulting position. -/
def play_v2 (time_ms : Option Int) (st : NodeState) : NodeState × List SendEff :=
  let p1 := match time_ms with
    | some t => { st.player with positionMs := t }
    | none => st.player
  let p2 := { p1 with isPlaying := true }
  let st' := { st with player := p2 }
  if st'.isHost then (st', broadcast_command st' (OutMsg.playMsg p2.positionMs))
  else (st', [])

/-- `VLCSync.pause` (main2.py:426-429): python-vlc `pause()` toggles the
playing flag; the host broadcasts the command. -/
def pause_v2 (st : NodeState) : NodeState × List SendEff :=
  let st' := { st with player := { st.player with isPlaying := !st.player.isPlaying } }
  if st'.isHost then (st', broadcast_command st' OutMsg.pauseMsg) else (st', [])

/-- `VLCSync.seek` (main2.py:431-434). -/
def seek_v2 (time_ms : Int) (st : NodeState) : NodeState × List SendEff :=
  let st' := { st with player := { st.player with positionMs := time_ms } }
  if st'.isHost then (st', broadcast_command st' (OutMsg.seekMsg time_ms)) else (st', [])

/-- Fold a `LoadResult` back into the session state; the requested indices
become client→host sends. -/
def applyLoad (st : NodeState) (r : LoadResult) : NodeState × List SendEff :=
  ({ st with playlist := r.playlist,
             player := { st.player with loadedMedia := r.loadedMedia } },
   r.requests.map (fun i => SendEff.toHost (OutMsg.requestFileMsg i)))

/-- A decoded incoming JSON object: every field the dispatcher may read, each
optional because the dict may lack it. -/
structure Command where
  type : Option String
  playlist : Option (List AnnouncedEntry)
  index : Option Int
  time : Option Int
  sync_time : Option Int
  enabled : Option Bool
deriving Repr, DecidableEq

/-- Python `command["key"]`: raises `KeyError` when the field is absent. -/
def getField {α : Type} (v : Option α) (key : String) : Except String α :=
  match v with
  | some x => Except.ok x
  | none => Except.error ("KeyError: " ++ key)

/-- The tags `VLCSync.handle_command` of main2.py recognizes. -/
def recognizedTags : List String :=
  ["playlist_info", "play_file", "play", "pause", "seek", "sync",
   "request_sync", "toggle_shuffle", "shuffle_state", "ping", "request_file"]

/-- `VLCSync.handle_command` of main2.py (main2.py:299-333) together with the
handlers it calls.  `fromPeer` is the `client_socket` argument (`some` only in
the host's per-connection loop).  An `Except.error` is an uncaught Python
exception escaping the dispatcher. -/
def handle_command (nowMs : Int) (fromPeer : Option Nat) (cmd : Command)
    (st : NodeState) : Except String (NodeState × List SendEff) := do
  let cmd_type ← getField cmd.type "type"
  if cmd_type == "playlist_info" then
    let info ← getField cmd.playlist "playlist"
    let (pl, missing) := handle_playlist_info st.folder st.missing_files info
    return ({ st with playlist := pl, missing_files := missing }, [])
  else if cmd_type == "play_file" then
    let file_index ← getField cmd.index "index"
    let r := verify_and_load_file st.isHost st.disk st.playlist
      st.player.loadedMedia file_index
    let (st1, sends1) := applyLoad st r
    if r.ok then
      let (st2, sends2) := play_v2 cmd.time st1
      return (st2, sends1 ++ sends2)
    else return (st1, sends1)
  else if cmd_type == "play" then
    return play_v2 cmd.time st
  else if cmd_type == "pause" then
    return pause_v2 st
  else if cmd_type == "seek" then
    let time_ms ← getField cmd.time "time"
    return seek_v2 time_ms st
  else if cmd_type == "sync" then
    if st.isHost then return (st, [])
    else
      let host_time ← getField cmd.time "time"
      let sync_time ← getField cmd.sync_time "sync_time"
      return ({ st with
        player := handle_sync_v2 st.isHost host_time sync_time nowMs st.player }, [])
  else if cmd_type == "request_sync" then
    if st.isHost then return (st, send_sync_command nowMs st)
    else return (st, [])
  else if cmd_type == "toggle_shuffle" then
    if st.isHost then
      let new_state := !st.shuffle_mode
      let st' := { st with shuffle_mode := new_state }
      return (st', broadcast_command st' (OutMsg.shuffleStateMsg new_state))
    else return (st, [])
  else if cmd_type == "shuffle_state" then
    if st.isHost then return (st, [])
    else
      let enabled ← getField cmd.enabled "enabled"
      return ({ st with shuffle_mode := enabled }, [])
  else if cmd_type == "ping" then
    if st.isHost then
      match fromPeer with
      | some peer => return (st, [SendEff.toPeer peer OutMsg.pong])
      | none => return (st, [])
    else return (st, [])
  else if cmd_type == "request_file" then
    if st.isHost then
      let _ ← getField cmd.index "index"
      return (st, [])
    else return (st, [])
  else return (st, [])

/-- One item delivered by a socket read: either bytes `json.loads` rejects,
or a decoded command object. -/
inductive RecvPayload where
  | malformed
  | msg (c : Command)
deriving Repr, DecidableEq

/-- Outcome of one receive-loop iteration: does the loop keep running with
the connection open, the resulting state, the sends performed. -/
structure StepOutcome where
  keepOpen : Bool
  state : NodeState
  sends : List SendEff
deriving Repr, DecidableEq

/-- One iteration of the host's per-connection loop `VLCSync.handle_client`
(main2.py:259-279): `json.JSONDecodeError` is caught and the loop continues;
any exception escaping `handle_command` reaches the bare `except`, and the
`finally` block removes and closes the connection. -/
def handle_client_step (nowMs : Int) (peer : Nat) (p : RecvPayload)
    (st : NodeState) : StepOutcome :=
  match p with
  | RecvPayload.malformed => { keepOpen := true, state := st, sends := [] }
  | RecvPayload.msg c =>
    match handle_command nowMs (some peer) c st with
    | Except.ok (st', sends) => { keepOpen := true, state := st', sends := sends }
    | Except.error _ => { keepOpen := false, state := st, sends := [] }

/-- One iteration of the client's loop `VLCSync.receive_commands`
(main2.py:281-297): the inner `try` only catches `socket.timeout`, so both a
`json.JSONDecodeError` and an exception from `handle_command` hit
`except Exception` and `break` the loop. -/
def receive_commands_step (nowMs : Int) (p : RecvPayload) (st : NodeState) :
    StepOutcome :=
  match p with
  | RecvPayload.malformed => { keepOpen := false, state := st, sends := [] }
  | RecvPayload.msg c =>
    match handle_command nowMs none c st with
    | Except.ok (st', sends) => { keepOpen := true, state := st', sends := sends }
    | Except.error _ => { keepOpen := false, state := st, sends := [] }

/-- `VLCSync.play` of main.py (main.py:382-390): start playback and (host
only) broadcast the resulting position; unlike main2.py's `play` it takes no
seek target. -/
def play_v1 (st : NodeState) : NodeState × List SendEff :=
  let st' := { st with player := { st.player with isPlaying := true } }
  if st'.isHost then
    (st', broadcast_command st' (OutMsg.playMsg st'.player.positionMs))
  else (st', [])

/-- `VLCSync.handle_command` of main.py (main.py:271-301).  main.py's
dispatcher recognizes fewer tags than main2.py's: it has no `request_sync`,
`toggle_shuffle` or `shuffle_state` branch, so those tags fall through and
are ignored.  Its `play_file` branch seeks via direct player calls when a
`time` field is present and its `play` branch plays then optionally seeks,
neither re-broadcasting; `pause` and `seek` are line-for-line identical to
main2.py's (main.py:392-400), so their embeddings are shared.  The `sync`
branch feeds `handle_sync` (main.py:438-462), which reads `command["time"]`
only after its `is_playing` guard; `oneWayLatencyMs` is its
`int(measure_latency() / 2)` estimate. -/
def handle_command_v1 (oneWayLatencyMs : Int) (fromPeer : Option Nat)
    (cmd : Command) (st : NodeState) :
    Except String (NodeState × List SendEff) := do
  let cmd_type ← getField cmd.type "type"
  if cmd_type == "playlist_info" then
    let info ← getField cmd.playlist "playlist"
    let (pl, missing) := handle_playlist_info st.folder st.missing_files info
    return ({ st with playlist := pl, missing_files := missing }, [])
  else if cmd_type == "play_file" then
    let file_index ← getField cmd.index "index"
    let r := verify_and_load_file st.isHost st.disk st.playlist
      st.player.loadedMedia file_index
    let (st1, sends1) := applyLoad st r
    if r.ok then
      match cmd.time with
      | some t =>
        return ({ st1 with
          player := { st1.player with isPlaying := true, positionMs := t } },
          sends1)
      | none =>
        let (st2, sends2) := play_v1 st1
        return (st2, sends1 ++ sends2)
    else return (st1, sends1)
  else if cmd_type == "play" then
    let p1 := { st.player with isPlaying := true }
    let p2 := match cmd.time with
      | some t => { p1 with positionMs := t }
      | none => p1
    return ({ st with player := p2 }, [])
  else if cmd_type == "pause" then
    return pause_v2 st
  else if cmd_type == "seek" then
    let time_ms ← getField cmd.time "time"
    return seek_v2 time_ms st
  else if cmd_type == "sync" then
    if !st.isHost && st.player.isPlaying then
      let host_time ← getField cmd.time "time"
      return ({ st with
        player := handle_sync_v1 st.isHost host_time oneWayLatencyMs
          st.player }, [])
    else return (st, [])
  else if cmd_type == "ping" then
    if st.isHost then
      match fromPeer with
      | some peer => return (st, [SendEff.toPeer peer OutMsg.pong])
      | none => return (st, [])
    else return (st, [])
  else if cmd_type == "request_file" then
    if st.isHost then
      let _ ← getField cmd.index "index"
      return (st, [])
    else return (st, [])
  else return (st, [])

/-- The four `Playlist` mutators reachable from user and network paths. -/
inductive PlaylistOp where
  | addFile (mf : MediaFile)
  | setCurrentIndex (i : Int)
  | nextFile
  | previousFile
deriving Repr, DecidableEq

/-- Apply one mutator, discarding its return value. -/
def applyOp (pl : Playlist) : PlaylistOp → Playlist
  | PlaylistOp.addFile mf => pl.add_file mf
  | PlaylistOp.setCurrentIndex i => (pl.set_current_index i).2
  | PlaylistOp.nextFile => pl.next_file.2
  | PlaylistOp.previousFile => pl.previous_file.2

/-- Run a sequence of mutators from the freshly constructed playlist. -/
def applyOps (ops : List PlaylistOp) : Playlist :=
  ops.foldl applyOp Playlist.init

/-- Cursor invariant: −1 (nothing selected) or a valid position. -/
def PlaylistInv (pl : Playlist) : Prop :=
  pl.current_index = -1 ∨
    (0 ≤ pl.current_index ∧ pl.current_index < (pl.media_files.length : Int))

/-- The data-model invariant of §3 of the spec: the entry stored at list
position `i` carries playlist index `i`. -/
def indicesContiguous (l : List MediaFile) : Prop :=
  ∀ i : Fin l.length, (l.get i).index = ((i : Nat) : Int)

/-! ## Helper lemmas -/

theorem length_pos_of_ne_nil {l : List MediaFile} (h : l ≠ []) : 0 < l.length :=
  List.length_pos.mpr h

theorem applyOp_preserves_inv (pl : Playlist) (op : PlaylistOp) (h : PlaylistInv pl) :
    PlaylistInv (applyOp pl op) := by
  cases op with
  | addFile mf =>
    rcases h with h | ⟨h1, h2⟩
    · exact Or.inl h
    · refine Or.inr ⟨h1, ?_⟩
      simp only [applyOp, Playlist.add_file, List.length_append, List.length_cons,
        List.length_nil]
      push_cast
      omega
  | setCurrentIndex i =>
    simp only [applyOp, Playlist.set_current_index]
    split
    · next hc => exact Or.inr hc
    · exact h
  | nextFile =>
    simp only [applyOp, Playlist.next_file]
    split
    · exact h
    · next hne =>
      have hpos : 0 < pl.media_files.length := by
        cases hl : pl.media_files with
        | nil => rw [hl] at hne; simp at hne
        | cons a t => simp [hl]
      refine Or.inr ⟨Int.emod_nonneg _ (by exact_mod_cast hpos.ne'), ?_⟩
      exact Int.emod_lt_of_pos _ (by exact_mod_cast hpos)
  | previousFile =>
    simp only [applyOp, Playlist.previous_file]
    split
    · exact h
    · next hne =>
      have hpos : 0 < pl.media_files.length := by
        cases hl : pl.media_files with
        | nil => rw [hl] at hne; simp at hne
        | cons a t => simp [hl]
      refine Or.inr ⟨Int.emod_nonneg _ (by exact_mod_cast hpos.ne'), ?_⟩
      exact Int.emod_lt_of_pos _ (by exact_mod_cast hpos)

theorem foldl_preserves_inv (ops : List PlaylistOp) (pl : Playlist) (h : PlaylistInv pl) :
    PlaylistInv (ops.foldl applyOp pl) := by
  induction ops generalizing pl with
  | nil => exact h
  | cons op rest ih => exact ih _ (applyOp_preserves_inv pl op h)

/-- C10: every Playlist reachable from the freshly constructed state
(`current_index = -1`) by any sequence of `add_file`, `set_current_index`,
`next_file`, `previous_file` has a cursor that is −1 or a valid position:
`set_current_index` never stores an out-of-bounds index, and the wrapping
moves keep the cursor in range on non-empty playlists. -/
theorem c10_playlist_cursor_invariant (ops : List PlaylistOp) :
    PlaylistInv (applyOps ops) :=
  foldl_preserves_inv ops Playlist.init (Or.inl rfl)

/-! ## C7 -/

def mfA : MediaFile := { path := "/m/a.mp4", name := "a.mp4", size := 10, hash := "ha", index := 0 }

def mfB : MediaFile := { path := "/m/b.mp4", name := "b.mp4", size := 20, hash := "hb", index := 1 }

def plAB : Playlist := { media_files := [mfA, mfB], current_index := 1 }

/-- C7 counterexample: on the 0-entry playlist the coordinator's
advance-to-next (`VLCSync.play_next`, main2.py:179-186) does not return "no
entry": its non-shuffle branch computes `(current_index + 1) % 0` and raises
`ZeroDivisionError`, so the claim's "never panics, mutates nothing, returns
no entry" does not hold for it. -/
theorem c7_counterexample :
    play_next_index false 0 Playlist.init =
      Except.error "ZeroDivisionError: integer modulo by zero" := by rfl

theorem playlist_nonempty_not_isEmpty {pl : Playlist} (h : pl.media_files ≠ []) :
    pl.media_files.isEmpty = false := by
  cases hl : pl.media_files with
  | nil => exact absurd hl h
  | cons a t => rfl

/-- C7 amended: on an N-entry playlist (N ≥ 1) with cursor k, `next_file`
moves the cursor to `(k+1) mod N` and returns the entry at that position, and
`previous_file` moves it to `(k-1+N) mod N` and returns that entry; both are
no-ops returning `none` on the empty playlist; the non-shuffle
`play_next` picks `(k+1) mod N` on non-empty playlists, but on a 0-entry
playlist `play_next` raises (in both shuffle branches) instead of returning
no entry. -/
theorem c7_amended :
    (∀ pl : Playlist, pl.media_files ≠ [] →
      pl.next_file.2.current_index =
          (pl.current_index + 1) % (pl.media_files.length : Int) ∧
      pl.next_file.1 =
          pl.media_files.get?
            ((pl.current_index + 1) % (pl.media_files.length : Int)).toNat ∧
      pl.previous_file.2.current_index =
          (pl.current_index - 1 + (pl.media_files.length : Int)) %
            (pl.media_files.length : Int) ∧
      pl.previous_file.1 =
          pl.media_files.get?
            (((pl.current_index - 1 + (pl.media_files.length : Int)) %
              (pl.media_files.length : Int)).toNat) ∧
      (∀ rd, play_next_index false rd pl =
          Except.ok ((pl.current_index + 1) % (pl.media_files.length : Int)))) ∧
    (∀ c : Int,
      (Playlist.mk [] c).next_file = (none, Playlist.mk [] c) ∧
      (Playlist.mk [] c).previous_file = (none, Playlist.mk [] c) ∧
      (∀ sm rd, ∃ e, play_next_index sm rd (Playlist.mk [] c) = Except.error e)) := by
  constructor
  · intro pl hne
    have hE : pl.media_files.isEmpty = false := playlist_nonempty_not_isEmpty hne
    have hpos : 0 < pl.media_files.length := List.length_pos.mpr hne
    have hposZ : (0 : Int) < (pl.media_files.length : Int) := by exact_mod_cast hpos
    have hNZ : (pl.media_files.length : Int) ≠ 0 := hposZ.ne'
    have hprev : (pl.current_index - 1 + (pl.media_files.length : Int)) %
        (pl.media_files.length : Int) =
        (pl.current_index - 1) % (pl.media_files.length : Int) := by
      rw [show pl.current_index - 1 + (pl.media_files.length : Int) =
        pl.current_index - 1 + (pl.media_files.length : Int) * 1 by ring,
        Int.add_mul_emod_self_left]
    refine ⟨?_, ?_, ?_, ?_, ?_⟩
    · simp [Playlist.next_file, hE]
    · simp only [Playlist.next_file, hE, Bool.false_eq_true, if_false,
        Playlist.get_current_file]
      rw [if_pos ⟨Int.emod_nonneg _ hNZ, Int.emod_lt_of_pos _ hposZ⟩]
    · simp [Playlist.previous_file, hE, hprev]
    · rw [hprev]
      simp only [Playlist.previous_file, hE, Bool.false_eq_true, if_false,
        Playlist.get_current_file]
      rw [if_pos ⟨Int.emod_nonneg _ hNZ, Int.emod_lt_of_pos _ hposZ⟩]
    · intro rd
      simp [play_next_index, hpos.ne']
  · intro c
    refine ⟨rfl, rfl, ?_⟩
    intro sm rd
    cases sm
    · exact ⟨_, rfl⟩
    · exact ⟨_, rfl⟩

/-- C7 witness: the amended theorem applied to the concrete 2-entry playlist
`plAB` with cursor 1: `next_file` wraps the cursor to position 0 and returns
the first entry, and so does `previous_file`. -/
theorem c7_amended_witness :
    plAB.media_files ≠ [] ∧
    plAB.next_file.2.current_index = 0 ∧ plAB.next_file.1 = some mfA ∧
    plAB.previous_file.2.current_index = 0 ∧ plAB.previous_file.1 = some mfA := by
  have h := c7_amended.1 plAB (by decide)
  refine ⟨by decide, ?_, ?_, ?_, ?_⟩
  · rw [h.1]; decide
  · rw [h.2.1]; decide
  · rw [h.2.2.1]; decide
  · rw [h.2.2.2.1]; decide

/-! ## C9 -/

/-- C9 counterexample: main.py's `handle_sync` (main.py:438-462) is not
idempotent.  A playing client at 5000 ms with rate 1.05 receiving a sync with
target 0 ms: one delivery hard-seeks to 0 and leaves the rate at 1.05; a
second identical delivery then finds a 0 ms difference and resets the rate to
1.0, so the state after two deliveries differs from the state after one. -/
theorem c9_counterexample :
    handle_sync_v1 false 0 0 (handle_sync_v1 false 0 0
        { positionMs := 5000, rate := 1.05, isPlaying := true, loadedMedia := none }) ≠
      handle_sync_v1 false 0 0
        { positionMs := 5000, rate := 1.05, isPlaying := true, loadedMedia := none } := by
  have h1 : handle_sync_v1 false 0 0
      { positionMs := 5000, rate := 1.05, isPlaying := true, loadedMedia := none } =
      { positionMs := 0, rate := 1.05, isPlaying := true, loadedMedia := none } := by
    norm_num [handle_sync_v1]
  have h2 : handle_sync_v1 false 0 0
      { positionMs := 0, rate := 1.05, isPlaying := true, loadedMedia := none } =
      { positionMs := 0, rate := 1, isPlaying := true, loadedMedia := none } := by
    norm_num [handle_sync_v1]
  rw [h1, h2]
  intro h
  have := congrArg PlayerState.rate h
  norm_num at this

/-- C9 amended: handling one sync message twice in succession, with identical
wall-clock readings, is idempotent for main2.py's `handle_sync`
(main2.py:472-489) — the corrected playback state after two deliveries equals
the state after one; main.py's `handle_sync` is not idempotent when a
hard-seek fires while the playback rate is not nominal (the second delivery
additionally resets the rate to 1.0, see the counterexample). -/
theorem c9_amended (isHost : Bool) (hostTimeMs syncTimeMs nowMs : Int)
    (st : PlayerState) :
    handle_sync_v2 isHost hostTimeMs syncTimeMs nowMs
        (handle_sync_v2 isHost hostTimeMs syncTimeMs nowMs st) =
      handle_sync_v2 isHost hostTimeMs syncTimeMs nowMs st := by
  cases hH : isHost with
  | true => simp [handle_sync_v2]
  | false =>
    by_cases hp : st.isPlaying = true
    · by_cases hd : 100 <
        |st.positionMs - adjusted_host_time_v2 hostTimeMs syncTimeMs nowMs|
      · simp [handle_sync_v2, hp, hd]
      · simp [handle_sync_v2, hp, hd]
    · simp [handle_sync_v2, hp]

/-! ## C3 -/

/-- C3 counterexample: main2.py's `handle_sync` (main2.py:472-489), cited by
the claim, has no rate-nudge band.  A playing client whose position differs
from the computed target by 500 ms (strictly between the 100 ms and 1 s
thresholds) hard-seeks to the target — position set to 0 — and its rate stays
nominal, refuting "the player's rate is nudged ... instead of seeking". -/
theorem c3_counterexample :
    (handle_sync_v2 false 0 0 0
        { positionMs := 500, rate := 1, isPlaying := true,
          loadedMedia := some "/m/a.mp4" }) =
      { positionMs := 0, rate := 1, isPlaying := true,
        loadedMedia := some "/m/a.mp4" } := by
  norm_num [handle_sync_v2, adjusted_host_time_v2]

/-- C3 amended: the claimed threshold behaviour holds for main.py's
`handle_sync` (main.py:438-462): while playing, a difference of at most
100 ms causes no seek and restores the nominal rate; a difference strictly
between 100 ms and 1000 ms (inclusive) causes no seek and nudges the rate 5 %
down (client ahead) or up (client behind); a difference above 1000 ms
hard-seeks to the target with the rate untouched.  main2.py's `handle_sync`
instead hard-seeks whenever the difference exceeds 100 ms, never touching the
rate, and does nothing within 100 ms. -/
theorem c3_amended (st : PlayerState) (hostTimeMs oneWayLatencyMs : Int)
    (hplay : st.isPlaying = true) :
    (|st.positionMs - (hostTimeMs + oneWayLatencyMs)| ≤ 100 →
      handle_sync_v1 false hostTimeMs oneWayLatencyMs st = { st with rate := 1 }) ∧
    (100 < |st.positionMs - (hostTimeMs + oneWayLatencyMs)| →
      |st.positionMs - (hostTimeMs + oneWayLatencyMs)| ≤ 1000 →
      handle_sync_v1 false hostTimeMs oneWayLatencyMs st =
        { st with rate := if 0 < st.positionMs - (hostTimeMs + oneWayLatencyMs)
            then (0.95 : ℚ) else 1.05 }) ∧
    (1000 < |st.positionMs - (hostTimeMs + oneWayLatencyMs)| →
      handle_sync_v1 false hostTimeMs oneWayLatencyMs st =
        { st with positionMs := hostTimeMs + oneWayLatencyMs }) ∧
    (∀ syncTimeMs nowMs,
      100 < |st.positionMs - adjusted_host_time_v2 hostTimeMs syncTimeMs nowMs| →
      handle_sync_v2 false hostTimeMs syncTimeMs nowMs st =
        { st with positionMs := adjusted_host_time_v2 hostTimeMs syncTimeMs nowMs }) ∧
    (∀ syncTimeMs nowMs,
      |st.positionMs - adjusted_host_time_v2 hostTimeMs syncTimeMs nowMs| ≤ 100 →
      handle_sync_v2 false hostTimeMs syncTimeMs nowMs st = st) := by
  refine ⟨?_, ?_, ?_, ?_, ?_⟩
  · intro h
    simp only [handle_sync_v1, hplay, Bool.not_false, Bool.true_and, if_true]
    rw [if_neg (by intro hc; linarith), if_neg (by intro hc; linarith)]
  · intro h1 h2
    simp only [handle_sync_v1, hplay, Bool.not_false, Bool.true_and, if_true]
    rw [if_neg (by intro hc; linarith), if_pos h1]
    split
    · rfl
    · rfl
  · intro h
    simp only [handle_sync_v1, hplay, Bool.not_false, Bool.true_and, if_true]
    rw [if_pos h]
  · intro syncTimeMs nowMs h
    simp only [handle_sync_v2, hplay, Bool.not_false, if_true]
    rw [if_pos h]
  · intro syncTimeMs nowMs h
    simp only [handle_sync_v2, hplay, Bool.not_false, if_true]
    rw [if_neg (by intro hc; linarith)]

/-- C3 witness: the amended theorem applied to a concrete playing client at
700 ms against target 0: main.py's handler keeps the position and slows the
rate to 0.95, main2.py's handler seeks to 0. -/
theorem c3_amended_witness :
    handle_sync_v1 false 0 0
        { positionMs := 700, rate := 1, isPlaying := true, loadedMedia := none } =
      { positionMs := 700, rate := 0.95, isPlaying := true, loadedMedia := none } ∧
    handle_sync_v2 false 0 0 0
        { positionMs := 700, rate := 1, isPlaying := true, loadedMedia := none } =
      { positionMs := 0, rate := 1, isPlaying := true, loadedMedia := none } := by
  have h := c3_amended
    { positionMs := 700, rate := 1, isPlaying := true, loadedMedia := none } 0 0 rfl
  constructor
  · have := h.2.1 (by norm_num) (by norm_num)
    rw [this]
    norm_num
  · have := h.2.2.2.1 0 0 (by norm_num [adjusted_host_time_v2])
    rw [this]
    norm_num [adjusted_host_time_v2]

/-! ## C4 -/

/-- C4: for a sync carrying host position P captured at host wall-clock T0,
processed by the client at wall-clock T1, main2.py's `handle_sync` computes
the target exactly `P + (T1 - T0)` (for any latency; with zero network
latency T1 is the receive instant), and a playing client within 100 ms of
that target is left completely unchanged.  Under the claim's zero-latency
premise (T1 = T0) the same holds for main.py's handler with a measured
latency of 0: the target is P and a client within 100 ms keeps its position,
only restoring the nominal rate. -/
theorem c4_sync_target_formula (st : PlayerState) (P T0 T1 : Int) :
    adjusted_host_time_v2 P T0 T1 = P + (T1 - T0) ∧
    (st.isPlaying = true → |st.positionMs - (P + (T1 - T0))| ≤ 100 →
      handle_sync_v2 false P T0 T1 st = st) ∧
    (T1 = T0 → st.isPlaying = true → |st.positionMs - P| ≤ 100 →
      handle_sync_v1 false P 0 st = { st with rate := 1 } ∧
      (handle_sync_v1 false P 0 st).positionMs = st.positionMs) := by
  refine ⟨rfl, ?_, ?_⟩
  · intro hplay h
    have hadj : adjusted_host_time_v2 P T0 T1 = P + (T1 - T0) := rfl
    simp only [handle_sync_v2, hplay, Bool.not_false, if_true, hadj]
    rw [if_neg (by intro hc; linarith)]
  · intro _ hplay h
    have heq : handle_sync_v1 false P 0 st = { st with rate := 1 } := by
      simp only [handle_sync_v1, hplay, Bool.not_false, Bool.true_and, if_true]
      rw [if_neg (by intro hc; rw [add_zero] at hc; linarith),
        if_neg (by intro hc; rw [add_zero] at hc; linarith)]
    exact ⟨heq, by rw [heq]⟩

/-- C4 witness: host position 7000 captured at T0 = 100, processed at
T1 = 100 (zero latency): the target is 7000, and a playing client at 7050
(50 ms off) is unchanged under main2.py's handler and keeps position 7050
under main.py's. -/
theorem c4_sync_target_formula_witness :
    adjusted_host_time_v2 7000 100 100 = 7000 + (100 - 100) ∧
    handle_sync_v2 false 7000 100 100
        { positionMs := 7050, rate := 1, isPlaying := true, loadedMedia := none } =
      { positionMs := 7050, rate := 1, isPlaying := true, loadedMedia := none } ∧
    (handle_sync_v1 false 7000 0
        { positionMs := 7050, rate := 1, isPlaying := true, loadedMedia := none
          }).positionMs = 7050 := by
  have h := c4_sync_target_formula
    { positionMs := 7050, rate := 1, isPlaying := true, loadedMedia := none } 7000 100 100
  exact ⟨h.1, h.2.1 rfl (by norm_num), (h.2.2 rfl rfl (by norm_num)).2⟩

/-! ## C6 -/

/-- C6 counterexample: main.py's `handle_sync` (main.py:438-440), cited by
the claim, does nothing at all when the client is not playing: a paused
client at 0 ms receiving a sync whose computed target is 5000 ms keeps
position 0 instead of being set to the target. -/
theorem c6_counterexample :
    handle_sync_v1 false 5000 0
        { positionMs := 0, rate := 1, isPlaying := false, loadedMedia := some "/m/a.mp4" } =
      { positionMs := 0, rate := 1, isPlaying := false, loadedMedia := some "/m/a.mp4" } ∧
    (handle_sync_v1 false 5000 0
        { positionMs := 0, rate := 1, isPlaying := false, loadedMedia := some "/m/a.mp4"
          }).positionMs ≠ 5000 + 0 := by
  constructor
  · norm_num [handle_sync_v1]
  · norm_num [handle_sync_v1]

/-- C6 amended: a not-playing client receiving a sync sets its position
directly to the computed target without starting playback under main2.py's
`handle_sync` (main2.py:481-489); under main.py's `handle_sync` the message
is ignored entirely (state unchanged, playback not started). -/
theorem c6_amended (st : PlayerState) (P T0 T1 L : Int)
    (hnp : st.isPlaying = false) :
    handle_sync_v2 false P T0 T1 st =
      { st with positionMs := adjusted_host_time_v2 P T0 T1 } ∧
    (handle_sync_v2 false P T0 T1 st).isPlaying = false ∧
    handle_sync_v1 false P L st = st := by
  refine ⟨?_, ?_, ?_⟩
  · simp [handle_sync_v2, hnp]
  · simp [handle_sync_v2, hnp]
  · simp [handle_sync_v1, hnp]

/-- C6 witness: a concrete paused client at 0 ms with target 9000 ms: the
main2.py handler moves its position to 9000 and leaves it paused; the main.py
handler leaves it untouched. -/
theorem c6_amended_witness :
    handle_sync_v2 false 9000 50 50
        { positionMs := 0, rate := 1, isPlaying := false, loadedMedia := none } =
      { positionMs := 9000, rate := 1, isPlaying := false, loadedMedia := none } ∧
    handle_sync_v1 false 9000 0
        { positionMs := 0, rate := 1, isPlaying := false, loadedMedia := none } =
      { positionMs := 0, rate := 1, isPlaying := false, loadedMedia := none } := by
  have h := c6_amended
    { positionMs := 0, rate := 1, isPlaying := false, loadedMedia := none } 9000 50 50 0 rfl
  refine ⟨?_, h.2.2⟩
  rw [h.1]
  norm_num [adjusted_host_time_v2]

/-! ## C8 -/

def requestSyncCmd : Command :=
  { type := some "request_sync", playlist := none, index := none, time := none,
    sync_time := none, enabled := none }

def pausedHost : NodeState :=
  { isHost := true, folder := none, disk := [], clients := [7],
    playlist := Playlist.init,
    player := { positionMs := 42000, rate := 1, isPlaying := false,
                loadedMedia := some "/m/a.mp4" },
    missing_files := [], shuffle_mode := false }

def playingHost : NodeState :=
  { isHost := true, folder := none, disk := [], clients := [1, 2],
    playlist := Playlist.init,
    player := { positionMs := 60000, rate := 1, isPlaying := true,
                loadedMedia := some "/m/a.mp4" },
    missing_files := [], shuffle_mode := false }

/-- C8 counterexample: the claim fails in both cited variants.  A main2.py
host with a connected peer that is NOT currently playing handles
`request_sync` by sending nothing at all (`send_sync_command`,
main2.py:495-503, is gated on `is_playing`); and main.py's dispatcher
(main.py:271-301) has no `request_sync` branch, so even a PLAYING main.py
host with connected peers emits nothing — refuting "for every request_sync
message received by the host, the host immediately emits one sync message to
all connected peers". -/
theorem c8_counterexample :
    handle_command 999 (some 7) requestSyncCmd pausedHost =
      Except.ok (pausedHost, []) ∧
    handle_command_v1 0 (some 1) requestSyncCmd playingHost =
      Except.ok (playingHost, []) := by
  exact ⟨rfl, rfl⟩

/-- C8 amended: on main2.py, a `request_sync` received by the host makes it
immediately broadcast one `sync` message, carrying its current playback
position and the current wall clock, to every connected peer — provided the
host is currently playing; a main2.py host that is not playing emits nothing
and is unchanged.  On main.py (also cited by the claim) the dispatcher has no
`request_sync` branch at all: the tag falls through unrecognized, and the
host — playing or not — emits nothing and is unchanged. -/
theorem c8_amended (nowMs : Int) (fromPeer : Option Nat) (cmd : Command)
    (st : NodeState) (hty : cmd.type = some "request_sync")
    (hhost : st.isHost = true) :
    (st.player.isPlaying = true →
      handle_command nowMs fromPeer cmd st =
        Except.ok (st, st.clients.map (fun c =>
          SendEff.toPeer c (OutMsg.syncMsg st.player.positionMs nowMs)))) ∧
    (st.player.isPlaying = false →
      handle_command nowMs fromPeer cmd st = Except.ok (st, [])) ∧
    (∀ oneWayLatencyMs,
      handle_command_v1 oneWayLatencyMs fromPeer cmd st =
        Except.ok (st, [])) := by
  refine ⟨?_, ?_, ?_⟩
  · intro hp
    simp [handle_command, getField, hty, hhost, send_sync_command,
      broadcast_command, hp, Bind.bind, Except.bind, pure, Except.pure]
  · intro hp
    simp [handle_command, getField, hty, hhost, send_sync_command,
      broadcast_command, hp, Bind.bind, Except.bind, pure, Except.pure]
  · intro oneWayLatencyMs
    simp [handle_command_v1, getField, hty, hhost, Bind.bind, Except.bind,
      pure, Except.pure]

/-- C8 witness: a playing host at 60000 ms with two connected peers handling
`request_sync` at wall clock 777 broadcasts the sync sample to both under
main2.py's dispatcher; the same playing host under main.py's dispatcher
emits nothing. -/
theorem c8_amended_witness :
    handle_command 777 (some 1) requestSyncCmd playingHost =
      Except.ok (playingHost,
        [SendEff.toPeer 1 (OutMsg.syncMsg 60000 777),
         SendEff.toPeer 2 (OutMsg.syncMsg 60000 777)]) ∧
    handle_command_v1 42 (some 1) requestSyncCmd playingHost =
      Except.ok (playingHost, []) := by
  have h := c8_amended 777 (some 1) requestSyncCmd playingHost rfl rfl
  refine ⟨?_, h.2.2 42⟩
  rw [h.1 rfl]
  rfl

/-! ## C5 -/

def seekNoTime : Command :=
  { type := some "seek", playlist := none, index := none, time := none,
    sync_time := none, enabled := none }

def frobCmd : Command :=
  { type := some "frobnicate", playlist := none, index := none, time := none,
    sync_time := none, enabled := none }

/-- C5 counterexample: a recognized tag missing its required field is not
"logged and ignored".  The host's per-connection receive loop handling a
`seek` command without a `time` field hits an uncaught `KeyError`
(main2.py:312-314): the bare `except`/`finally` of `handle_client`
(main2.py:273-279) closes the connection and the loop exits, so the
connection does not stay open. -/
theorem c5_counterexample :
    (handle_client_step 0 7 (RecvPayload.msg seekNoTime) pausedHost).keepOpen
      = false := by
  rfl

/-- C5 amended: an unrecognized tag is ignored and the receive loop continues
with the connection open; an undecodable payload is logged and the host's
loop continues (its `JSONDecodeError` handler), but the client's loop exits;
a message with no `type` field, or a recognized tag missing a required field
(e.g. `seek` without `time`), raises an uncaught exception that terminates
the receiving loop — the host closes that connection, the client's loop
breaks. -/
theorem c5_amended (nowMs : Int) (peer : Nat) (st : NodeState) (cmd : Command)
    (t : String) :
    (handle_client_step nowMs peer RecvPayload.malformed st =
      { keepOpen := true, state := st, sends := [] }) ∧
    (receive_commands_step nowMs RecvPayload.malformed st =
      { keepOpen := false, state := st, sends := [] }) ∧
    (cmd.type = some t → t ∉ recognizedTags →
      handle_command nowMs (some peer) cmd st = Except.ok (st, []) ∧
      handle_client_step nowMs peer (RecvPayload.msg cmd) st =
        { keepOpen := true, state := st, sends := [] }) ∧
    (cmd.type = none →
      handle_command nowMs (some peer) cmd st = Except.error "KeyError: type" ∧
      (handle_client_step nowMs peer (RecvPayload.msg cmd) st).keepOpen = false) ∧
    (cmd.type = some "seek" → cmd.time = none →
      handle_command nowMs (some peer) cmd st = Except.error "KeyError: time" ∧
      (handle_client_step nowMs peer (RecvPayload.msg cmd) st).keepOpen = false ∧
      (receive_commands_step nowMs (RecvPayload.msg cmd) st).keepOpen = false) := by
  refine ⟨rfl, rfl, ?_, ?_, ?_⟩
  · intro hty hmem
    simp only [recognizedTags, List.mem_cons, List.not_mem_nil, or_false,
      not_or] at hmem
    obtain ⟨h1, h2, h3, h4, h5, h6, h7, h8, h9, h10, h11⟩ := hmem
    have hcmd : handle_command nowMs (some peer) cmd st = Except.ok (st, []) := by
      simp [handle_command, getField, hty, h1, h2, h3, h4, h5, h6, h7, h8, h9,
        h10, h11, Bind.bind, Except.bind, pure, Except.pure]
    exact ⟨hcmd, by simp [handle_client_step, hcmd]⟩
  · intro hty
    have hcmd : handle_command nowMs (some peer) cmd st =
        Except.error "KeyError: type" := by
      simp [handle_command, getField, hty, Bind.bind, Except.bind]
    exact ⟨hcmd, by simp [handle_client_step, hcmd]⟩
  · intro hty htime
    have hcmd : handle_command nowMs (some peer) cmd st =
        Except.error "KeyError: time" := by
      simp [handle_command, getField, hty, htime, Bind.bind, Except.bind,
        pure, Except.pure]
    refine ⟨hcmd, by simp [handle_client_step, hcmd], ?_⟩
    have hcmd' : handle_command nowMs none cmd st =
        Except.error "KeyError: time" := by
      simp [handle_command, getField, hty, htime, Bind.bind, Except.bind,
        pure, Except.pure]
    simp [receive_commands_step, hcmd']

/-- C5 witness: concrete instances of the amended behaviour on the concrete
host state: an undecodable payload keeps the host's loop running, a message
with the unrecognized tag "frobnicate" is ignored with the connection open,
and the `seek`-without-`time` message ends the loop. -/
theorem c5_amended_witness :
    handle_client_step 0 7 RecvPayload.malformed pausedHost =
      { keepOpen := true, state := pausedHost, sends := [] } ∧
    handle_client_step 0 7 (RecvPayload.msg frobCmd) pausedHost =
      { keepOpen := true, state := pausedHost, sends := [] } ∧
    (handle_client_step 0 7 (RecvPayload.msg seekNoTime) pausedHost).keepOpen
      = false := by
  have h := c5_amended 0 7 pausedHost frobCmd "frobnicate"
  have h' := c5_amended 0 7 pausedHost seekNoTime "seek"
  exact ⟨h.1, (h.2.2.1 rfl (by decide)).2, (h'.2.2.2.2 rfl rfl).2.1⟩

/-! ## C2 -/

theorem find_index_bounds {pl : Playlist} {idx : Int} {mf : MediaFile}
    (hcontig : indicesContiguous pl.media_files)
    (hfind : pl.media_files.find? (fun mf => mf.index == idx) = some mf) :
    mf.index = idx ∧ 0 ≤ idx ∧ idx < (pl.media_files.length : Int) := by
  have hp : mf.index = idx := by
    have := List.find?_some hfind
    exact beq_iff_eq.mp this
  have hmem : mf ∈ pl.media_files := List.mem_of_find?_eq_some hfind
  obtain ⟨n, hn⟩ := List.mem_iff_get.mp hmem
  have hidx : mf.index = ((n : Nat) : Int) := by rw [← hn]; exact hcontig n
  refine ⟨hp, ?_, ?_⟩
  · rw [← hp, hidx]; positivity
  · rw [← hp, hidx]; exact_mod_cast n.isLt

/-- C2: behaviour of `verify_and_load_file` (main2.py:370-384) on a playlist
satisfying the contiguous-index data-model invariant (§3 of the spec, true of
every playlist the program builds).  An index with no matching entry fails
leaving playlist, cursor and loaded media unchanged and sends nothing; an
entry whose file does not exist on disk fails, leaves everything unchanged,
and sends `request_file` exactly when running as client; an entry whose file
exists succeeds, sets the cursor to that index and loads the file. -/
theorem c2_verify_and_load (isHost : Bool) (disk : List String) (pl : Playlist)
    (loaded : Option String) (idx : Int)
    (hcontig : indicesContiguous pl.media_files) :
    (pl.media_files.find? (fun mf => mf.index == idx) = none →
      verify_and_load_file isHost disk pl loaded idx =
        { ok := false, playlist := pl, loadedMedia := loaded, requests := [] }) ∧
    (∀ mf, pl.media_files.find? (fun mf => mf.index == idx) = some mf →
      (disk.contains mf.path = false →
        verify_and_load_file isHost disk pl loaded idx =
          { ok := false, playlist := pl, loadedMedia := loaded,
            requests := if isHost then [] else [idx] }) ∧
      (disk.contains mf.path = true →
        (verify_and_load_file isHost disk pl loaded idx).ok = true ∧
        (verify_and_load_file isHost disk pl loaded idx).playlist.current_index
          = idx ∧
        (verify_and_load_file isHost disk pl loaded idx).playlist.media_files
          = pl.media_files ∧
        (verify_and_load_file isHost disk pl loaded idx).loadedMedia
          = some mf.path)) := by
  constructor
  · intro hfind
    simp [verify_and_load_file, hfind]
  · intro mf hfind
    obtain ⟨hpidx, hlo, hhi⟩ := find_index_bounds hcontig hfind
    constructor
    · intro hdisk
      have hm : mf.path ∉ disk := by simpa using hdisk
      simp [verify_and_load_file, hfind, hm, request_file]
    · intro hdisk
      have hm : mf.path ∈ disk := by simpa using hdisk
      have hset : (pl.set_current_index idx).2 =
          { pl with current_index := idx } := by
        simp [Playlist.set_current_index, hlo, hhi]
      refine ⟨?_, ?_, ?_, ?_⟩ <;>
        simp [verify_and_load_file, hfind, hm, hset]

def verifyDisk : List String := ["/m/a.mp4", "/m/b.mp4"]

/-- C2 witness: on the concrete contiguous playlist `plAB` with both files on
disk, loading index 0 succeeds, moves the cursor to 0 and loads the file;
looking up the absent index 5 fails and changes nothing; and with an empty
disk, a client loading index 0 fails, changes nothing and requests file 0. -/
theorem c2_verify_and_load_witness :
    (verify_and_load_file false verifyDisk plAB none 0).ok = true ∧
    (verify_and_load_file false verifyDisk plAB none 0).playlist.current_index
      = 0 ∧
    (verify_and_load_file false verifyDisk plAB none 0).loadedMedia
      = some "/m/a.mp4" ∧
    verify_and_load_file false verifyDisk plAB none 5 =
      { ok := false, playlist := plAB, loadedMedia := none, requests := [] } ∧
    verify_and_load_file false [] plAB none 0 =
      { ok := false, playlist := plAB, loadedMedia := none, requests := [0] } := by
  have hcontig : indicesContiguous plAB.media_files := by
    intro i
    fin_cases i <;> rfl
  have h0 := c2_verify_and_load false verifyDisk plAB none 0 hcontig
  have h5 := c2_verify_and_load false verifyDisk plAB none 5 hcontig
  have hE := c2_verify_and_load false [] plAB none 0 hcontig
  have hfind0 : plAB.media_files.find? (fun mf => mf.index == (0 : Int))
      = some mfA := by rfl
  have hfind5 : plAB.media_files.find? (fun mf => mf.index == (5 : Int))
      = none := by rfl
  have hsucc := (h0.2 mfA hfind0).2 (by rfl)
  refine ⟨hsucc.1, hsucc.2.1, ?_, h5.1 hfind5, ?_⟩
  · rw [hsucc.2.2.2]; rfl
  · have := (hE.2 mfA hfind0).1 (by rfl)
    rw [this]
    rfl

/-! ## C1 -/

theorem playlistInfoStep_fst (folder : Option (List LocalFile))
    (acc : Playlist × MissingFiles) (fi : AnnouncedEntry) :
    (playlistInfoStep folder acc fi).1 = acc.1.add_file (mkEntry folder fi) := by
  simp only [playlistInfoStep]
  split <;> rfl

theorem foldl_playlistInfo_media (folder : Option (List LocalFile))
    (info : List AnnouncedEntry) (acc : Playlist × MissingFiles) :
    ((info.foldl (playlistInfoStep folder) acc).1).media_files =
      acc.1.media_files ++ info.map (mkEntry folder) ∧
    ((info.foldl (playlistInfoStep folder) acc).1).current_index =
      acc.1.current_index := by
  induction info generalizing acc with
  | nil => simp
  | cons fi rest ih =>
    simp only [List.foldl_cons, List.map_cons]
    obtain ⟨hm, hc⟩ := ih (playlistInfoStep folder acc fi)
    rw [hm, hc, playlistInfoStep_fst]
    exact ⟨by simp [Playlist.add_file], by simp [Playlist.add_file]⟩

theorem hasKey_store (m : MissingFiles) (k k' : Int) (v : MediaFile)
    (h : m.hasKey k = true) : (m.store k' v).hasKey k = true := by
  unfold MissingFiles.hasKey MissingFiles.store
  unfold MissingFiles.hasKey at h
  rw [List.any_cons]
  simp [h]

theorem hasKey_store_self (m : MissingFiles) (k : Int) (v : MediaFile) :
    (m.store k v).hasKey k = true := by
  unfold MissingFiles.hasKey MissingFiles.store
  rw [List.any_cons]
  simp

theorem playlistInfoStep_hasKey (folder : Option (List LocalFile))
    (acc : Playlist × MissingFiles) (fi : AnnouncedEntry) (k : Int)
    (h : acc.2.hasKey k = true) :
    ((playlistInfoStep folder acc fi).2).hasKey k = true := by
  simp only [playlistInfoStep]
  split
  · exact h
  · exact hasKey_store _ _ _ _ h

theorem foldl_playlistInfo_hasKey_mono (folder : Option (List LocalFile))
    (info : List AnnouncedEntry) (acc : Playlist × MissingFiles) (k : Int)
    (h : acc.2.hasKey k = true) :
    ((info.foldl (playlistInfoStep folder) acc).2).hasKey k = true := by
  induction info generalizing acc with
  | nil => exact h
  | cons fi rest ih => exact ih _ (playlistInfoStep_hasKey folder acc fi k h)

theorem foldl_playlistInfo_records (folder : Option (List LocalFile))
    (fi : AnnouncedEntry)
    (hmiss : optTruthy (find_matching_file folder fi.hash) = false)
    (info : List AnnouncedEntry) :
    ∀ acc : Playlist × MissingFiles, fi ∈ info →
      ((info.foldl (playlistInfoStep folder) acc).2).hasKey fi.index = true := by
  induction info with
  | nil => intro acc hfi; cases hfi
  | cons x rest ih =>
    intro acc hfi
    rcases List.mem_cons.mp hfi with h | h
    · subst h
      rw [List.foldl_cons]
      apply foldl_playlistInfo_hasKey_mono
      simp only [playlistInfoStep]
      rw [if_neg (by rw [hmiss]; exact Bool.false_ne_true)]
      exact hasKey_store_self _ _ _
    · exact ih (playlistInfoStep folder acc x) h

theorem find_matching_isSome (files : List LocalFile) (h : String) :
    (find_matching_file (some files) h).isSome = true ↔
      ∃ f ∈ files, f.hash = h := by
  have heq : (find_matching_file (some files) h).isSome =
      (files.find? (fun f => f.hash == h)).isSome := by
    simp only [find_matching_file]
    cases files.find? (fun f => f.hash == h) <;> rfl
  rw [heq, List.find?_isSome]
  constructor
  · rintro ⟨f, hm, hh⟩
    exact ⟨f, hm, beq_iff_eq.mp hh⟩
  · rintro ⟨f, hm, hh⟩
    exact ⟨f, hm, beq_iff_eq.mpr hh⟩

/-- C1: for every `playlist_info` message, the rebuilt playlist has exactly
one entry per announced entry, in announced order, each carrying the
announced name, size, hash and playlist index, and a fresh cursor (−1); an
entry whose hash matches a fingerprinted local file (the first match of the
deterministic folder scan) gets that file's path, an entry with no local
match gets an empty path and its index is recorded in `missing_files`.  The
final conjunct links matching to the folder contents: a match exists exactly
when some scanned file carries the announced hash. -/
theorem c1_reconciliation (folder : Option (List LocalFile))
    (missing0 : MissingFiles) (info : List AnnouncedEntry) (i : Nat)
    (hi : i < info.length) :
    (handle_playlist_info folder missing0 info).1.media_files.length
      = info.length ∧
    (handle_playlist_info folder missing0 info).1.current_index = -1 ∧
    (handle_playlist_info folder missing0 info).1.media_files.get? i
      = some (mkEntry folder (info.get ⟨i, hi⟩)) ∧
    (mkEntry folder (info.get ⟨i, hi⟩)).index = (info.get ⟨i, hi⟩).index ∧
    (mkEntry folder (info.get ⟨i, hi⟩)).name = (info.get ⟨i, hi⟩).name ∧
    (mkEntry folder (info.get ⟨i, hi⟩)).size = (info.get ⟨i, hi⟩).size ∧
    (mkEntry folder (info.get ⟨i, hi⟩)).hash = (info.get ⟨i, hi⟩).hash ∧
    (∀ p, find_matching_file folder (info.get ⟨i, hi⟩).hash = some p →
      (mkEntry folder (info.get ⟨i, hi⟩)).path = p) ∧
    (find_matching_file folder (info.get ⟨i, hi⟩).hash = none →
      (mkEntry folder (info.get ⟨i, hi⟩)).path = "" ∧
      (handle_playlist_info folder missing0 info).2.hasKey
        (info.get ⟨i, hi⟩).index = true) ∧
    (∀ files, folder = some files →
      ((find_matching_file folder (info.get ⟨i, hi⟩).hash).isSome = true ↔
        ∃ f ∈ files, f.hash = (info.get ⟨i, hi⟩).hash)) := by
  have hm : (handle_playlist_info folder missing0 info).1.media_files =
      info.map (mkEntry folder) := by
    have := (foldl_playlistInfo_media folder info (Playlist.init, missing0)).1
    simpa [handle_playlist_info, Playlist.init] using this
  have hc : (handle_playlist_info folder missing0 info).1.current_index = -1 := by
    have := (foldl_playlistInfo_media folder info (Playlist.init, missing0)).2
    simpa [handle_playlist_info, Playlist.init] using this
  refine ⟨?_, hc, ?_, rfl, rfl, rfl, rfl, ?_, ?_, ?_⟩
  · rw [hm, List.length_map]
  · rw [hm, List.get?_map, List.get?_eq_get hi]
    rfl
  · intro p hp
    show orEmpty (find_matching_file folder (info.get ⟨i, hi⟩).hash) = p
    rw [hp]
    rfl
  · intro hn
    constructor
    · show orEmpty (find_matching_file folder (info.get ⟨i, hi⟩).hash) = ""
      rw [hn]
      rfl
    · exact foldl_playlistInfo_records folder (info.get ⟨i, hi⟩)
        (by rw [hn]; rfl) info (Playlist.init, missing0) (info.get_mem i hi)
  · intro files hf
    rw [hf]
    exact find_matching_isSome files _

def lfB : LocalFile := { path := "/m/b.mp4", name := "b.mp4", size := 20, hash := "hb" }

def annA : AnnouncedEntry := { name := "a.mp4", size := 10, hash := "ha", index := 0 }

def annB : AnnouncedEntry := { name := "b.mp4", size := 20, hash := "hb", index := 1 }

/-- C1 witness: the spec's own scenario — a host announces entries with
hashes "ha" (index 0) and "hb" (index 1) to a client whose folder only
contains a file fingerprinting to "hb": the rebuilt playlist has 2 entries in
announced order, index 0 gets an empty path and is recorded missing, index 1
resolves to the local path. -/
theorem c1_reconciliation_witness :
    (handle_playlist_info (some [lfB]) [] [annA, annB]).1.media_files.length
      = 2 ∧
    (handle_playlist_info (some [lfB]) [] [annA, annB]).1.media_files.get? 0
      = some (mkEntry (some [lfB]) annA) ∧
    (mkEntry (some [lfB]) annA).path = "" ∧
    (handle_playlist_info (some [lfB]) [] [annA, annB]).2.hasKey 0 = true ∧
    (handle_playlist_info (some [lfB]) [] [annA, annB]).1.media_files.get? 1
      = some (mkEntry (some [lfB]) annB) ∧
    (mkEntry (some [lfB]) annB).path = "/m/b.mp4" := by
  have h0 := c1_reconciliation (some [lfB]) [] [annA, annB] 0 (by decide)
  have h1 := c1_reconciliation (some [lfB]) [] [annA, annB] 1 (by decide)
  have hn : find_matching_file (some [lfB])
      (([annA, annB].get ⟨0, by decide⟩).hash) = none := by rfl
  have hs : find_matching_file (some [lfB])
      (([annA, annB].get ⟨1, by decide⟩).hash) = some "/m/b.mp4" := by rfl
  have hmiss := h0.2.2.2.2.2.2.2.2.1 hn
  exact ⟨h0.1, h0.2.2.1, hmiss.1, hmiss.2, h1.2.2.1,
    h1.2.2.2.2.2.2.2.1 "/m/b.mp4" hs⟩
